import Mathlib

/-!
Verification of the C++ single-file bundler
(`onlinejudge_verify/languages/cplusplus_bundle.py`).

The Python source is shallowly embedded below.  Byte strings are modelled as
`String` (the source operates on ASCII directive syntax only), files are lists
of lines (as produced by `splitlines(keepends=True)`, with the trailing
newline synthesized when missing, exactly as the source does before
splitting), and the ambient filesystem / external preprocessor are an explicit
environment `Env`.  The `re.match` patterns of the source are implemented as
executable recognizers over `List Char`; each recognizer mirrors one regex,
including its prefix-matching (anchored at start only) semantics.
-/

namespace CppBundle

/-- A filesystem path, as a list of components (`pathlib.Path` parts).
`parent` is `dropLast`, `/`-joining is list append. -/
abbrev Path := List String

/-- Python `\s` on bytes: the six ASCII whitespace characters. -/
def isPyWS (c : Char) : Bool :=
  c == ' ' || c == '\t' || c == '\n' || c == '\r' || c == '\x0b' || c == '\x0c'

/-- Python `\w` on bytes (no LOCALE flag): `[A-Za-z0-9_]`. -/
def isWordChar (c : Char) : Bool :=
  c.isAlphanum || c == '_'

/-- `\s*` : drop leading whitespace. -/
def dropWS (cs : List Char) : List Char := cs.dropWhile isPyWS

/-- Match a literal character sequence at the head, returning the rest. -/
def stripLit : List Char → List Char → Option (List Char)
  | [], cs => some cs
  | _ :: _, [] => none
  | k :: ks, c :: cs => if c == k then stripLit ks cs else none

/-- Does the head character exist and is it whitespace (one `\s`)? -/
def headWS : List Char → Bool
  | [] => false
  | c :: _ => isPyWS c

/-- `\s*#\s*` : the common prefix of every directive regex in the source. -/
def afterHash (cs : List Char) : Option (List Char) :=
  match dropWS cs with
  | '#' :: rest => some (dropWS rest)
  | _ => none

/-- `re.match(rb'\s*#\s*(if|ifdef|ifndef)\s.*', line)` (line 223 of the
source): `#if`/`#ifdef`/`#ifndef` followed by one whitespace. -/
def matchNestIf (s : String) : Bool :=
  match afterHash s.toList with
  | none => false
  | some cs =>
    match stripLit ['i', 'f'] cs with
    | none => false
    | some k =>
      headWS k
        || (match stripLit ['d', 'e', 'f'] k with
            | some k2 => headWS k2
            | none => false)
        || (match stripLit ['n', 'd', 'e', 'f'] k with
            | some k2 => headWS k2
            | none => false)

/-- `re.match(rb'\s*#\s*(else\s*|elif\s.*)', line)` (line 225): note that
`else\s*` needs no trailing whitespace (prefix match), while `elif` must be
followed by one whitespace. -/
def matchElseElif (s : String) : Bool :=
  match afterHash s.toList with
  | none => false
  | some cs =>
    (stripLit ['e', 'l', 's', 'e'] cs).isSome
      || (match stripLit ['e', 'l', 'i', 'f'] cs with
          | some k => headWS k
          | none => false)

/-- `re.match(rb'\s*#\s*endif\s*', line)` (lines 228 and 267): a prefix
match, so anything may follow `endif`. -/
def matchEndif (s : String) : Bool :=
  match afterHash s.toList with
  | none => false
  | some cs => (stripLit ['e', 'n', 'd', 'i', 'f'] cs).isSome

/-- `re.match(rb'\s*#\s*pragma\s+once\s*', line)` (line 235), applied to the
RAW line because the preprocessor strips `#pragma once` like a comment. -/
def matchPragmaOnce (s : String) : Bool :=
  match afterHash s.toList with
  | none => false
  | some cs =>
    match stripLit ['p', 'r', 'a', 'g', 'm', 'a'] cs with
    | none => false
    | some k => headWS k && (stripLit ['o', 'n', 'c', 'e'] (dropWS k)).isSome

/-- Shared helper for the two guard regexes: keyword, `\s+`, capture `(\w+)`. -/
def wordAfter (kw : List Char) (cs : List Char) : Option String :=
  match stripLit kw cs with
  | none => none
  | some k =>
    if headWS k then
      let w := (dropWS k).takeWhile isWordChar
      if w.isEmpty then none else some (String.mk w)
    else none

/-- `re.match(rb'\s*#\s*ifndef\s+(\w+)\s*', line)` (line 251): guard
candidate, capturing the macro name. -/
def matchIfndefGuard (s : String) : Option String :=
  match afterHash s.toList with
  | none => none
  | some cs => wordAfter ['i', 'f', 'n', 'd', 'e', 'f'] cs

/-- `re.match(rb'\s*#\s*define\s+(\w+)\s*', line)` (line 260): guard
acceptance candidate, capturing the defined name. -/
def matchDefineGuard (s : String) : Option String :=
  match afterHash s.toList with
  | none => none
  | some cs => wordAfter ['d', 'e', 'f', 'i', 'n', 'e'] cs

/-- The part of the string before the LAST occurrence of `d` (greedy `(.*)d`). -/
def lastDelim (d : Char) (cs : List Char) : Option (List Char) :=
  match cs.reverse.dropWhile (fun c => !(c == d)) with
  | [] => none
  | _ :: tail => some tail.reverse

/-- `re.match(rb'\s*#\s*include\s*<(.*)>\s*', line)` and its `"(.*)"` twin
(lines 284 and 300).  `.` does not cross a newline; the greedy `.*` captures
up to the last closing delimiter on the line. -/
def includeArg (opening closing : Char) (s : String) : Option String :=
  match afterHash s.toList with
  | none => none
  | some cs =>
    match stripLit ['i', 'n', 'c', 'l', 'u', 'd', 'e'] cs with
    | none => none
    | some k =>
      match dropWS k with
      | [] => none
      | c :: rest =>
        if c == opening then
          match lastDelim closing (rest.takeWhile (fun x => !(x == '\n'))) with
          | some name => some (String.mk name)
          | none => none
        else none

/-- `#include <...>` recognizer. -/
def matchIncludeSys (s : String) : Option String := includeArg '<' '>' s

/-- `#include "..."` recognizer. -/
def matchIncludeUser (s : String) : Option String := includeArg '"' '"' s

/-- Python `bytes.rstrip()`. -/
def pyRstrip (cs : List Char) : List Char :=
  (cs.reverse.dropWhile isPyWS).reverse

/-- Decimal digits to a number (the `int(m.group(1))` of the source). -/
def digitsToNat (ds : List Char) : Nat :=
  ds.foldl (fun n c => n * 10 + (c.toNat - '0'.toNat)) 0

/-- `re.match(rb'# (\d+) ".*"', line.rstrip())` (line 124): a GCC linemarker.
Returns the line number `N` when matched. -/
def matchLinemarker (s : String) : Option Nat :=
  match pyRstrip s.toList with
  | '#' :: ' ' :: cs =>
    let ds := cs.takeWhile Char.isDigit
    if ds.isEmpty then none
    else
      match cs.dropWhile Char.isDigit with
      | ' ' :: '"' :: rest =>
        if rest.any (fun c => c == '"') then some (digitsToNat ds) else none
      | _ => none
  | _ => none

/-- `bits_stdcxx_h = 'bits/stdc++.h'`. -/
def bits_stdcxx_h : String := "bits/stdc++.h"

/-- `cxx_standard_libraries` (verbatim from the source). -/
def cxx_standard_libraries : List String :=
  ["algorithm", "array", "bitset", "chrono", "codecvt", "complex",
   "condition_variable", "deque", "exception", "forward_list", "fstream",
   "functional", "future", "iomanip", "ios", "iosfwd", "iostream", "istream",
   "iterator", "limits", "list", "locale", "map", "memory", "mutex", "new",
   "numeric", "ostream", "queue", "random", "regex", "set", "sstream",
   "stack", "stdexcept", "streambuf", "string", "thread", "tuple",
   "typeinfo", "unordered_map", "unordered_set", "utility", "valarray",
   "vector"]

/-- `c_standard_libraries` (verbatim from the source). -/
def c_standard_libraries : List String :=
  ["assert.h", "complex.h", "ctype.h", "errno.h", "fenv.h", "float.h",
   "inttypes.h", "iso646.h", "limits.h", "locale.h", "math.h", "setjmp.h",
   "signal.h", "stdalign.h", "stdarg.h", "stdatomic.h", "stdbool.h",
   "stddef.h", "stdint.h", "stdio.h", "stdlib.h", "stdnoreturn.h",
   "string.h", "tgmath.h", "threads.h", "time.h", "uchar.h", "wchar.h",
   "wctype.h"]

/-- `standard_libraries = set([bits_stdcxx_h] + cxx + c + ['c' + name[:-2]
for name in c])` (membership is all that is ever used of the set). -/
def standard_libraries : List String :=
  bits_stdcxx_h :: cxx_standard_libraries ++ c_standard_libraries
    ++ c_standard_libraries.map (fun n => "c" ++ n.dropRight 2)

/-- One line of the output buffer `result_lines`.  `#line` directives are
kept structured (they render as `#line N "path"\n`); every other appended
byte-line is kept verbatim in `raw`. -/
inductive OutLine
  | line (n : Nat) (path : String)
  | raw (s : String)
deriving DecidableEq, Repr

/-- `result_lines[-1].startswith(b'#line ')` (line 171) on a buffer entry:
a structured directive renders as `#line …`, a raw line may also happen to
start with those bytes. -/
def OutLine.isLineDirective : OutLine → Bool
  | .line _ _ => true
  | .raw s => "#line ".toList.isPrefixOf s.toList

/-- The error model: `BundleErrorAt(path, line, message)` plus the
exceptions that can escape `update` without being `BundleError`s
(`IOError` from `open`, `AssertionError` from the length assert) and the
out-of-fuel artifact of the embedding (Python recursion is unbounded). -/
inductive BErr
  | bundleErrorAt (path : Path) (line : Int) (msg : String)
  | ioError (path : Path)
  | assertFail (path : Path)
  | outOfFuel
deriving DecidableEq, Repr

/-- The mutable fields of a `Bundler` instance (sets are modelled as
duplicate-free lists; only membership, insertion and removal are used). -/
structure BState where
  pragma_once : List Path
  pragma_once_system : List String
  result_lines : List OutLine
  path_stack : List Path
deriving DecidableEq, Repr

/-- The per-file local variables of `Bundler.update` (lines 202-208).
`include_guard_ident` embeds `include_guard_macro`. -/
structure FileCtx where
  non_guard_line_found : Bool
  pragma_once_found : Bool
  include_guard_ident : Option String
  include_guard_define_found : Bool
  include_guard_endif_found : Bool
  preprocess_if_nest : Int
deriving DecidableEq, Repr

/-- Initial per-file state (all flags false, nest 0). -/
def FileCtx.init : FileCtx := ⟨false, false, none, false, false, 0⟩

/-- The ambient world: file contents (already split into keepends lines with
the trailing newline synthesized, as lines 199-203 of the source do), the raw
output of the external preprocessor per file (the bytes returned by
`subprocess.check_output`, split into keepends lines), filesystem existence,
`pathlib.Path.resolve`, the `relative_to(cwd)`-with-fallback used by `_line`,
and the configured `iquotes` search directories. -/
structure Env where
  rawLines : Path → Option (List String)
  ppOut : Path → List String
  pathExists : Path → Bool
  resolve : Path → Path
  relToCwd : Path → Path
  iquotes : List Path

/-- `str(path)` for rendering into a `#line` directive. -/
def pathStr (p : Path) : String := String.intercalate "/" p

/-- The pop loop of `Bundler._line` (lines 170-172): drop trailing buffer
entries that start with `#line `. -/
def popLineDirectives (out : List OutLine) : List OutLine :=
  (out.reverse.dropWhile OutLine.isLineDirective).reverse

/-- `Bundler._line(line, path)` (lines 169-177): pop pending trailing
`#line` entries, then append `#line {n} "{relpath}"`. -/
def appendLineDirective (env : Env) (n : Nat) (path : Path)
    (out : List OutLine) : List OutLine :=
  popLineDirectives out ++ [OutLine.line n (pathStr (env.relToCwd path))]

/-- `set.add` on the path set. -/
def addPath (p : Path) (l : List Path) : List Path :=
  if p ∈ l then l else p :: l

/-- `set.add` on the system-header name set. -/
def addStr (s : String) (l : List String) : List String :=
  if s ∈ l then l else s :: l

/-- The `while len(lines) + 1 < lineno` padding of `get_uncommented_code`
(lines 128-130): extend to `n - 1` lines with blank lines. -/
def padTo (lines : List String) (n : Nat) : List String :=
  lines ++ List.replicate (n - 1 - lines.length) "\n"

/-- The loop of `get_uncommented_code` (lines 122-133): a linemarker pads
the accumulator to `N - 1` lines and is dropped; other lines are copied. -/
def gucGo : List String → List String → List String
  | acc, [] => acc
  | acc, l :: rest =>
    match matchLinemarker l with
    | some n => gucGo (padTo acc n) rest
    | none => gucGo (acc ++ [l]) rest

/-- `get_uncommented_code` post-processing, at the level of keepends lines
(the source joins the list to bytes and `update` re-splits it; since every
kept line is newline-terminated except possibly the last, that round-trip is
the identity on the line list). -/
def getUncommentedLines (ppOutput : List String) : List String :=
  gucGo [] ppOutput

/-- Line 217 of the source: pad the stripped view with empty (falsy)
trailing lines up to the raw line count (`[b''] * (len(lines) -
len(uncommented_lines))`; a negative count extends by nothing). -/
def strippedPadded (env : Env) (path : Path) (lines : List String) :
    List String :=
  let stripped := getUncommentedLines (env.ppOut path)
  stripped ++ List.replicate (lines.length - stripped.length) ""

/-- The search loop of `Bundler._resolve` over `iquotes` (lines 183-186). -/
def resolveLoop (env : Env) (hdr : Path) : List Path → Except BErr Path
  | [] => .error (.bundleErrorAt hdr (-1) "no such header")
  | d :: rest =>
    if env.pathExists (d ++ hdr) then .ok (env.resolve (d ++ hdr))
    else resolveLoop env hdr rest

/-- `Bundler._resolve(path, included_from)` (lines 181-187): try the
including file's directory first, then each `iquotes` entry in order; the
first existing candidate is returned resolved (canonicalized). -/
def resolveHeader (env : Env) (hdr : Path) (included_from : Path) :
    Except BErr Path :=
  if env.pathExists (included_from.dropLast ++ hdr) then
    .ok (env.resolve (included_from.dropLast ++ hdr))
  else resolveLoop env hdr env.iquotes

/-- Split a character list on `/` (for `pathlib.Path(included)`). -/
def splitSlash : List Char → Path
  | [] => [""]
  | c :: cs =>
    let rest := splitSlash cs
    if c == '/' then "" :: rest
    else
      match rest with
      | h :: t => (String.mk [c] ++ h) :: t
      | [] => [String.mk [c]]

/-- `pathlib.Path(included)`: split the captured header name on `/`. -/
def strToPath (s : String) : Path := splitSlash s.toList

/-- Lines 228-231: the `#endif` decrement has happened (`ctx2` is the
post-decrement state); a negative counter is an error. -/
def nestStepEndif (path : Path) (i : Nat) (ctx2 : FileCtx) :
    Except BErr FileCtx :=
  if ctx2.preprocess_if_nest < 0 then
    .error (.bundleErrorAt path (i + 1) "unmatched #endif")
  else .ok ctx2

/-- Lines 225-231, after the `#if`-family increment (`ctx1` is the
post-increment state): `#else`/`#elif` at depth 0 is an error, `#endif`
decrements. -/
def nestStepElse (path : Path) (i : Nat) (uline : String) (ctx1 : FileCtx) :
    Except BErr FileCtx :=
  if matchElseElif uline ∧ ctx1.preprocess_if_nest = 0 then
    .error (.bundleErrorAt path (i + 1) "unmatched #else / #elif")
  else if matchEndif uline then
    nestStepEndif path i
      { ctx1 with preprocess_if_nest := ctx1.preprocess_if_nest - 1 }
  else .ok ctx1

/-- The conditional-nesting bookkeeping at the top of the loop body
(lines 222-231): `#if`-family increments, `#else`/`#elif` at depth 0 is an
error, `#endif` decrements and a negative result is an error. -/
def nestStep (path : Path) (i : Nat) (uline : String) (ctx : FileCtx) :
    Except BErr FileCtx :=
  nestStepElse path i uline
    (if matchNestIf uline then
      { ctx with preprocess_if_nest := ctx.preprocess_if_nest + 1 }
    else ctx)

/-- `is_toplevel` (line 232): depth 0, or depth 1 with a guard `#ifndef`
candidate currently recorded. -/
def isToplevel (ctx : FileCtx) : Bool :=
  ctx.preprocess_if_nest == 0
    || (ctx.preprocess_if_nest == 1 && ctx.include_guard_ident.isSome)

/-- One step of `update`'s per-line loop, outcome. -/
inductive StepRes
  | cont (ctx : FileCtx) (st : BState)
  | early (st : BState)
  | fail (e : BErr) (st : BState)
deriving DecidableEq, Repr

/-- Outcome of the whole per-line loop. -/
inductive LoopRes
  | done (ctx : FileCtx) (st : BState)
  | early (st : BState)
  | fail (e : BErr) (st : BState)
deriving DecidableEq, Repr

/-- Result of `update`: normal return, or a propagating exception.  Either
way the Bundler object keeps its (mutated) state, which the result carries. -/
inductive BResult
  | ok (st : BState)
  | fail (e : BErr) (st : BState)
deriving DecidableEq, Repr

/-- The state carried by a result. -/
def BResult.state : BResult → BState
  | .ok st => st
  | .fail _ st => st

/-- Lines 270-282 of the source: the `if uncommented_line:` block.  A
non-empty stripped line marks non-guard content, retracts a guard candidate
whose `#define` never came, and is an error after the guard's `#endif`. -/
def markContent (ctx : FileCtx) : FileCtx :=
  if ctx.include_guard_ident.isSome ∧ ¬ctx.include_guard_define_found
  then { ctx with non_guard_line_found := true, include_guard_ident := none }
  else { ctx with non_guard_line_found := true }

/-- See `markContent`: the error check after marking.  (The two definitions
together are lines 270-282.) -/
def contentCheck (path : Path) (i : Nat) (uline : String) (ctx : FileCtx) :
    Except BErr FileCtx :=
  if uline = "" then .ok ctx
  else if (markContent ctx).include_guard_endif_found then
    .error (.bundleErrorAt path (i + 1) "found codes out of include guard")
  else .ok (markContent ctx)

/-- Lines 283-311 of the source: the `#include <...>`, `#include "..."` and
fallthrough emissions.  `upd` is the recursive call to `update`. -/
def stageIncludes (upd : BState → Path → BResult) (env : Env) (path : Path)
    (i : Nat) (line uline : String) (is_toplevel : Bool) (ctx : FileCtx)
    (st : BState) : StepRes :=
    match matchIncludeSys uline with
    | some included =>
      if included ∈ st.pragma_once_system
          ∨ bits_stdcxx_h ∈ st.pragma_once_system then
        .cont ctx
          { st with result_lines := appendLineDirective env (i + 2) path
                                      st.result_lines }
      else if is_toplevel ∧ included ∈ standard_libraries then
        .cont ctx
          { st with pragma_once_system := addStr included st.pragma_once_system,
                    result_lines := st.result_lines ++ [.raw line] }
      else
        .cont ctx { st with result_lines := st.result_lines ++ [.raw line] }
    | none =>
      match matchIncludeUser uline with
      | some included =>
        if ¬is_toplevel then
          .fail (.bundleErrorAt path (i + 1)
            "unable to process #include in #if / #ifdef / #ifndef other than include guards") st
        else
          match resolveHeader env (strToPath included) path with
          | .error e => .fail e st
          | .ok next =>
            match upd st next with
            | .ok st1 =>
              .cont ctx
                { st1 with result_lines := appendLineDirective env (i + 2) path
                                             st1.result_lines }
            | .fail e st1 => .fail e st1
      | none =>
        .cont ctx { st with result_lines := st.result_lines ++ [.raw line] }

/-- Lines 270-311 of the source: content check, then the emissions. -/
def stageContent (upd : BState → Path → BResult) (env : Env) (path : Path)
    (i : Nat) (line uline : String) (is_toplevel : Bool) (ctx : FileCtx)
    (st : BState) : StepRes :=
  match contentCheck path i uline ctx with
  | .error e => .fail e st
  | .ok ctx => stageIncludes upd env path i line uline is_toplevel ctx st

/-- Lines 266-269: `#endif` closing an accepted guard at depth 0. -/
def stageGuardEndif (upd : BState → Path → BResult) (env : Env) (path : Path)
    (i : Nat) (line uline : String) (is_toplevel : Bool) (ctx : FileCtx)
    (st : BState) : StepRes :=
  if ctx.include_guard_define_found ∧ ctx.preprocess_if_nest = 0
      ∧ ¬ctx.include_guard_endif_found ∧ matchEndif uline then
    .cont { ctx with include_guard_endif_found := true }
      { st with result_lines := st.result_lines ++ [.raw "\n"] }
  else stageContent upd env path i line uline is_toplevel ctx st

/-- Lines 258-264: `#define M` accepting the pending guard candidate;
the file is then registered in `pragma_once`. -/
def stageGuardDefine (upd : BState → Path → BResult) (env : Env) (path : Path)
    (i : Nat) (line uline : String) (is_toplevel : Bool) (ctx : FileCtx)
    (st : BState) : StepRes :=
  match (if ctx.include_guard_ident.isSome ∧ ¬ctx.include_guard_define_found
         then matchDefineGuard uline else none) with
  | some d =>
    if ctx.include_guard_ident = some d then
      .cont { ctx with include_guard_define_found := true }
        { st with pragma_once := addPath (env.resolve path) st.pragma_once,
                  result_lines := st.result_lines ++ [.raw "\n"] }
    else stageGuardEndif upd env path i line uline is_toplevel ctx st
  | none => stageGuardEndif upd env path i line uline is_toplevel ctx st

/-- Lines 249-256: a leading `#ifndef M` recorded as guard candidate. -/
def stageGuardIfndef (upd : BState → Path → BResult) (env : Env) (path : Path)
    (i : Nat) (line uline : String) (is_toplevel : Bool) (ctx : FileCtx)
    (st : BState) : StepRes :=
  match (if ¬ctx.pragma_once_found ∧ ¬ctx.non_guard_line_found
            ∧ ctx.include_guard_ident = none
         then matchIfndefGuard uline else none) with
  | some m =>
    .cont { ctx with include_guard_ident := some m }
      { st with result_lines := st.result_lines ++ [.raw "\n"] }
  | none => stageGuardDefine upd env path i line uline is_toplevel ctx st

/-- Lines 234-247: `#pragma once`, recognized on the RAW line. -/
def stagePragma (upd : BState → Path → BResult) (env : Env) (path : Path)
    (i : Nat) (line uline : String) (is_toplevel : Bool) (ctx : FileCtx)
    (st : BState) : StepRes :=
  if matchPragmaOnce line then
    if ctx.non_guard_line_found then
      .fail (.bundleErrorAt path (i + 1) "#pragma once found in a non-first line") st
    else if ctx.include_guard_ident.isSome then
      .fail (.bundleErrorAt path (i + 1)
        "#pragma once found in an include guard with #ifndef") st
    else if env.resolve path ∈ st.pragma_once then
      .early st
    else
      .cont { ctx with pragma_once_found := true }
        { st with pragma_once := addPath (env.resolve path) st.pragma_once,
                  result_lines := appendLineDirective env (i + 2) path
                                    st.result_lines }
  else stageGuardIfndef upd env path i line uline is_toplevel ctx st

/-- The whole body of the per-line loop (lines 220-311): nest bookkeeping,
`is_toplevel`, then the directive stages in source order. -/
def bundleLine (upd : BState → Path → BResult) (env : Env) (path : Path)
    (i : Nat) (line uline : String) (ctx : FileCtx) (st : BState) : StepRes :=
  match nestStep path i uline ctx with
  | .error e => .fail e st
  | .ok ctx =>
    stagePragma upd env path i line uline (isToplevel ctx) ctx st

/-- The `for i, (line, uncommented_line) in enumerate(zip(...))` loop. -/
def bundleLoop (upd : BState → Path → BResult) (env : Env) (path : Path) :
    List (String × String) → Nat → FileCtx → BState → LoopRes
  | [], _, ctx, st => .done ctx st
  | (line, uline) :: rest, i, ctx, st =>
    match bundleLine upd env path i line uline ctx st with
    | .cont ctx' st' => bundleLoop upd env path rest (i + 1) ctx' st'
    | .early st' => .early st'
    | .fail e st' => .fail e st'

/-- The end-of-file checks (lines 313-317): unbalanced conditionals, or a
guard `#ifndef` whose `#endif` never closed.  The reported line number is
`i + 1` for the last loop index `i`, i.e. the raw line count. -/
def updateFinish (path : Path) (nLines : Nat) (ctx : FileCtx) (st : BState) :
    BResult :=
  if ctx.preprocess_if_nest ≠ 0 then
    .fail (.bundleErrorAt path nLines "unmatched #if / #ifdef / #ifndef") st
  else if ctx.include_guard_ident.isSome ∧ ¬ctx.include_guard_endif_found then
    .fail (.bundleErrorAt path nLines "unmatched #ifndef") st
  else .ok st

/-- The `finally: path_stack.remove(path)` of lines 322-324: whatever the
body's outcome, the path is erased from the stack of the carried state. -/
def popStack (path : Path) (r : BResult) : BResult :=
  match r with
  | .ok st' => .ok { st' with path_stack := st'.path_stack.erase path }
  | .fail e st' => .fail e { st' with path_stack := st'.path_stack.erase path }

/-- The `try`-guarded part of `update` (lines 197-320), starting from the
state `st1` in which the path has already been pushed: read the file, obtain
and pad the stripped view, assert equal lengths, emit `#line 1`, run the
per-line loop, and run the end-of-file checks. -/
def updateBodyInner (env : Env) (upd : BState → Path → BResult)
    (st1 : BState) (path : Path) : BResult :=
  match env.rawLines path with
  | none => .fail (.ioError path) st1
  | some lines =>
    if lines.length ≠ (strippedPadded env path lines).length then
      .fail (.assertFail path) st1
    else
      match bundleLoop upd env path
          (lines.zip (strippedPadded env path lines)) 0 FileCtx.init
          { st1 with
            result_lines := appendLineDirective env 1 path st1.result_lines }
        with
      | .done ctx st3 => updateFinish path lines.length ctx st3
      | .early st3 => .ok st3
      | .fail e st3 => .fail e st3

/-- Lines 196-324 of the source: push the path (as passed) onto the stack,
run the body, and pop the path again on every exit. -/
def updateBody (env : Env) (upd : BState → Path → BResult) (st : BState)
    (path : Path) : BResult :=
  popStack path
    (updateBodyInner env upd { st with path_stack := path :: st.path_stack }
      path)

/-- The two entry checks of `update` (lines 189-195): the `pragma_once` skip
(on the resolved path) and the cycle check (on the path as passed). -/
def outerChecks (env : Env) (st : BState) (path : Path) (k : BResult) :
    BResult :=
  if env.resolve path ∈ st.pragma_once then .ok st
  else if path ∈ st.path_stack then
    .fail (.bundleErrorAt path (-1) "cycle found in inclusion relations") st
  else k

/-- `Bundler.update(path)`.  Python recursion is unbounded; the embedding
indexes it by fuel, consumed only at recursive descent, so that any claim
about a terminating Python run holds at every sufficient fuel. -/
def update (env : Env) (fuel : Nat) : BState → Path → BResult :=
  Nat.rec (motive := fun _ => BState → Path → BResult)
    (fun st path => outerChecks env st path (.fail .outOfFuel st))
    (fun _ ih st path => outerChecks env st path (updateBody env ih st path))
    fuel

/-- Unfolding equation: at fuel 0 only the entry checks run. -/
theorem update_zero (env : Env) (st : BState) (path : Path) :
    update env 0 st path = outerChecks env st path (.fail .outOfFuel st) := rfl

/-- Unfolding equation: at positive fuel, entry checks then the body, with
the recursive calls running at one less fuel. -/
theorem update_succ (env : Env) (fuel : Nat) (st : BState) (path : Path) :
    update env (fuel + 1) st path
      = outerChecks env st path (updateBody env (update env fuel) st path) := rfl

/-- The state carried by a loop-step outcome. -/
def StepRes.state : StepRes → BState
  | .cont _ st => st
  | .early st => st
  | .fail _ st => st

/-- The state carried by a loop outcome. -/
def LoopRes.state : LoopRes → BState
  | .done _ st => st
  | .early st => st
  | .fail _ st => st

/-- Whether an error is the embedded `AssertionError` of line 218. -/
def errIsAssert : BErr → Bool
  | .assertFail _ => true
  | _ => false

/-- Whether a result is the embedded `AssertionError` of line 218. -/
def BResult.isAssertFail : BResult → Bool
  | .fail e _ => errIsAssert e
  | .ok _ => false

/-- The standard-include name an output line would be recognized as, were it
matched by the `#include <...>` pattern (used to state output invariants). -/
def sysNameOf : OutLine → Option String
  | .line _ _ => none
  | .raw s => matchIncludeSys s

/-- Number of output lines recognized as `#include <H>` for the given `H`. -/
def sysCount (H : String) (out : List OutLine) : Nat :=
  out.countP (fun o => sysNameOf o == some H)

/-- Number of output lines recognized as any `#include <...>`. -/
def sysTotal (out : List OutLine) : Nat :=
  out.countP (fun o => (sysNameOf o).isSome)

/-- The raw/stripped line pairing that `update` iterates over for a file
(the `zip(lines, uncommented_lines)` of line 220). -/
def fileView (env : Env) (path : Path) : Option (List (String × String)) :=
  match env.rawLines path with
  | none => none
  | some lines => some (lines.zip (strippedPadded env path lines))

/-- The raw and the comment-stripped view of every file agree on which lines
are `#include <...>` directives (and on the captured name).  This holds for
the real comment-stripping preprocessor, which only removes comments. -/
def SysViewAgree (env : Env) : Prop :=
  ∀ path v, fileView env path = some v →
    ∀ pr ∈ v, matchIncludeSys pr.1 = matchIncludeSys pr.2

/-- Modelled from the spec: the contract of the external preprocessor output
(§4.2, §6 of the specification).  Walking the output with the running
stripped-view length `cur`, every linemarker `# N "file"` points at a source
line within the file (`N ≤ rawLen + 1`), and every content line corresponds
to the next source line (`cur < rawLen`).  This is what "the stripped view's
line N aligns with the source file's line N" means for output lines. -/
def alignedTo (rawLen : Nat) : Nat → List String → Bool
  | _, [] => true
  | cur, l :: rest =>
    match matchLinemarker l with
    | some n => decide (n ≤ rawLen + 1) && alignedTo rawLen (max cur (n - 1)) rest
    | none => decide (cur < rawLen) && alignedTo rawLen (cur + 1) rest

/-- Every file's preprocessor output obeys the linemarker alignment
contract. -/
def AlignedEnv (env : Env) : Prop :=
  ∀ path lines, env.rawLines path = some lines →
    alignedTo lines.length 0 (env.ppOut path) = true

/-! ### Concrete scenario environments (used by witnesses/counterexamples) -/

/-- The empty starting state of a fresh `Bundler`. -/
def st0 : BState := ⟨[], [], [], []⟩

/-- A concrete filesystem: each entry is a path with its raw lines and its
preprocessor-output lines.  `resolve` and `relToCwd` are the identity. -/
def mkEnv (files : List (Path × (List String × List String))) : Env where
  rawLines := fun p => (files.find? (fun q => q.1 == p)).map (fun q => q.2.1)
  ppOut := fun p => ((files.find? (fun q => q.1 == p)).map (fun q => q.2.2)).getD []
  pathExists := fun p => (files.find? (fun q => q.1 == p)).isSome
  resolve := fun p => p
  relToCwd := fun p => p
  iquotes := []

/-- An environment with no files at all. -/
def envTriv : Env :=
  ⟨fun _ => none, fun _ => [], fun _ => false, fun p => p, fun p => p, []⟩

/-- Scenario for C2: a guard `#ifndef G` whose `#define` never appears,
with an `#include "a.h"` on the line after the `#ifndef`. -/
def env2 : Env := mkEnv
  [(["main.cc"], (["#ifndef G\n", "#include \"a.h\"\n", "#endif\n"],
                  ["#ifndef G\n", "#include \"a.h\"\n", "#endif\n"])),
   (["a.h"], (["int x;\n"], ["int x;\n"]))]

/-- Scenario for C3: the umbrella header included inside `#if 1` (not
top-level) and again at top level. -/
def env3 : Env := mkEnv
  [(["main.cc"],
    (["#if 1\n", "#include <bits/stdc++.h>\n", "#endif\n",
      "#include <bits/stdc++.h>\n"],
     ["#if 1\n", "#include <bits/stdc++.h>\n", "#endif\n",
      "#include <bits/stdc++.h>\n"]))]

/-- Scenario for C4 (spec §8 concrete scenario 4): `main.cc` includes `a.h`,
which includes `b.h`. -/
def env4 : Env := mkEnv
  [(["main.cc"], (["#include \"a.h\"\n"], ["#include \"a.h\"\n"])),
   (["a.h"], (["#include \"b.h\"\n", "int a;\n"],
              ["#include \"b.h\"\n", "int a;\n"])),
   (["b.h"], (["int b;\n"], ["int b;\n"]))]

/-- Scenario for C5: a `#pragma once` header (the preprocessor strips the
pragma line to a blank line in the stripped view). -/
def env5 : Env := mkEnv
  [(["a.h"], (["#pragma once\n", "int x;\n"], ["\n", "int x;\n"]))]

/-- Scenario for C6: the path `a` canonicalizes to `b` (think `./a` vs the
absolute path), `a`'s file includes `"b"`, and `b` is a different file. -/
def env6 : Env where
  rawLines := fun p =>
    if p == ["a"] then some ["#include \"b\"\n"]
    else if p == ["b"] then some ["int ok;\n"] else none
  ppOut := fun p =>
    if p == ["a"] then ["#include \"b\"\n"]
    else if p == ["b"] then ["int ok;\n"] else []
  pathExists := fun p => p == ["b"]
  resolve := fun p => if p == ["a"] then ["b"] else p
  relToCwd := fun p => p
  iquotes := []

/-- Scenario for C10: a file whose first two lines are both `#pragma once`. -/
def env10 : Env := mkEnv
  [(["c.h"], (["#pragma once\n", "#pragma once\n", "int y;\n"],
              ["\n", "\n", "int y;\n"]))]

/-- A one-file-everywhere environment (every path maps to the same file);
used to discharge the universally quantified environment hypotheses of
witnesses concretely. -/
def envConst (raw pp : List String) : Env :=
  ⟨fun _ => some raw, fun _ => pp, fun _ => false, fun p => p, fun p => p, []⟩

end CppBundle

namespace CppBundle

/-! ## Claim C1 -/

/-- C1: for every canonical path already registered in `pragma_once`
(seenGuarded), a further `update` call on it returns immediately with the
state unchanged: nothing is appended to the output, no error is raised, and
every field of the Bundler state is as before. -/
theorem c1_second_update_is_noop (env : Env) (fuel : Nat) (st : BState)
    (path : Path) (h : env.resolve path ∈ st.pragma_once) :
    update env fuel st path = .ok st := by
  cases fuel with
  | zero => rw [update_zero]; unfold outerChecks; rw [if_pos h]
  | succ n => rw [update_succ]; unfold outerChecks; rw [if_pos h]

/-- C1 witness: a concrete registered path, skipped as a no-op. -/
theorem c1_witness :
    envTriv.resolve ["a.h"] ∈ (⟨[["a.h"]], [], [], []⟩ : BState).pragma_once
      ∧ update envTriv 0 ⟨[["a.h"]], [], [], []⟩ ["a.h"]
          = .ok ⟨[["a.h"]], [], [], []⟩ :=
  ⟨by decide, c1_second_update_is_noop envTriv 0 ⟨[["a.h"]], [], [], []⟩ ["a.h"] (by decide)⟩

/-! ## Claim C10 -/

/-- C10: a second `#pragma once` line, reached with no non-guard content
seen and no `#ifndef` guard candidate active, in a file whose canonical path
is already in `pragma_once`, makes the per-line loop return early with the
state exactly as accumulated so far: no error, nothing further emitted, and
the remaining lines of the file are never processed. -/
theorem c10_second_pragma_once_returns_early
    (upd : BState → Path → BResult) (env : Env) (path : Path) (i : Nat)
    (line uline : String) (rest : List (String × String)) (ctx : FileCtx)
    (st : BState)
    (hp : matchPragmaOnce line = true)
    (hni : matchNestIf uline = false) (hee : matchElseElif uline = false)
    (hen : matchEndif uline = false)
    (hng : ctx.non_guard_line_found = false)
    (hid : ctx.include_guard_ident = none)
    (hmem : env.resolve path ∈ st.pragma_once) :
    bundleLoop upd env path ((line, uline) :: rest) i ctx st = .early st := by
  unfold bundleLoop bundleLine nestStep nestStepElse stagePragma
  simp [hp, hni, hee, hen, hng, hid, hmem]

/-- C10 witness: the second `#pragma once` of `env10`'s file `c.h`, at the
state reached after its first line, returns early; the pending third line
`int y;` is dropped and the buffered output is kept. -/
theorem c10_witness :
    matchPragmaOnce "#pragma once\n" = true
      ∧ env10.resolve ["c.h"]
          ∈ (⟨[["c.h"]], [], [.line 2 "c.h"], [["c.h"]]⟩ : BState).pragma_once
      ∧ bundleLoop (fun st _ => BResult.ok st) env10 ["c.h"]
          [("#pragma once\n", "\n"), ("int y;\n", "int y;\n")] 1
          { FileCtx.init with pragma_once_found := true }
          ⟨[["c.h"]], [], [.line 2 "c.h"], [["c.h"]]⟩
        = .early ⟨[["c.h"]], [], [.line 2 "c.h"], [["c.h"]]⟩ :=
  ⟨by decide, by decide,
    c10_second_pragma_once_returns_early (fun st _ => BResult.ok st) env10
      ["c.h"] 1 "#pragma once\n" "\n" [("int y;\n", "int y;\n")]
      { FileCtx.init with pragma_once_found := true }
      ⟨[["c.h"]], [], [.line 2 "c.h"], [["c.h"]]⟩
      (by decide) (by decide) (by decide) (by decide) (by decide) (by decide)
      (by decide)⟩

/-! ## Claim C4 -/

/-- C4 counterexample: on the nested-include scenario (`main.cc` includes
`a.h`, `a.h` includes `b.h`), the bundle succeeds but its output is NOT the
sequence claimed by the spec: the claimed leading directives
`#line 1 "main.cc"` and `#line 1 "a.h"` are absent, because each is popped
by the coalescing rule when the next file entry emits its own `#line 1`. -/
theorem c4_counterexample :
    update env4 3 st0 ["main.cc"]
        = .ok ⟨[], [],
               [.line 1 "b.h", .raw "int b;\n", .line 2 "a.h",
                .raw "int a;\n", .line 2 "main.cc"], []⟩
      ∧ ¬ ([OutLine.line 1 "b.h", OutLine.raw "int b;\n",
            OutLine.line 2 "a.h", OutLine.raw "int a;\n",
            OutLine.line 2 "main.cc"]
          = [OutLine.line 1 "main.cc", OutLine.line 1 "a.h",
             OutLine.line 1 "b.h", OutLine.raw "int b;\n",
             OutLine.line 2 "a.h", OutLine.raw "int a;\n",
             OutLine.line 2 "main.cc"]) :=
  ⟨by decide, by decide⟩

/-- C4 amended: the bundled output of the nested-include scenario is exactly
`#line 1 "b.h"`, `b.h`'s content, `#line 2 "a.h"`, `a.h`'s remaining
content, `#line 2 "main.cc"`; the `#line 1 "main.cc"` and `#line 1 "a.h"`
directives the spec lists first are popped by the coalescing rule, since at
the moment each inner file emits its `#line 1` they are still the pending
tail of the buffer. -/
theorem c4_nested_include_output :
    update env4 3 st0 ["main.cc"]
      = .ok ⟨[], [],
             [.line 1 "b.h", .raw "int b;\n", .line 2 "a.h",
              .raw "int a;\n", .line 2 "main.cc"], []⟩ := by decide

/-! ## Claim C5 -/

/-- C5 counterexample: bundling a fresh `#pragma once` header registers the
path and schedules the `#line (i+2)` directive, but does NOT emit any blank
placeholder line: the claimed blank line is nowhere in the output. -/
theorem c5_counterexample :
    update env5 1 st0 ["a.h"]
        = .ok ⟨[["a.h"]], [], [.line 2 "a.h", .raw "int x;\n"], []⟩
      ∧ OutLine.raw "\n" ∉ [OutLine.line 2 "a.h", OutLine.raw "int x;\n"] :=
  ⟨by decide, by decide⟩

/-- C5 amended: a `#pragma once` recognized at line `i` of a file not yet in
`pragma_once`, with no prior non-guard content and no guard `#ifndef`
candidate, marks the file `pragma_once_found`, registers the canonical path,
and replaces any pending trailing `#line` directives with a single
`#line (i+2)` directive — it emits NO blank placeholder line (unlike the
`#ifndef`/`#define`/`#endif` guard branches, which do emit one). -/
theorem c5_pragma_once_line_effect
    (upd : BState → Path → BResult) (env : Env) (path : Path) (i : Nat)
    (line uline : String) (ctx : FileCtx) (st : BState)
    (hp : matchPragmaOnce line = true)
    (hni : matchNestIf uline = false) (hee : matchElseElif uline = false)
    (hen : matchEndif uline = false)
    (hng : ctx.non_guard_line_found = false)
    (hid : ctx.include_guard_ident = none)
    (hmem : env.resolve path ∉ st.pragma_once) :
    bundleLine upd env path i line uline ctx st
      = .cont { ctx with pragma_once_found := true }
          { st with pragma_once := env.resolve path :: st.pragma_once,
                    result_lines := popLineDirectives st.result_lines
                      ++ [OutLine.line (i + 2) (pathStr (env.relToCwd path))] } := by
  unfold bundleLine nestStep nestStepElse stagePragma appendLineDirective
    addPath
  simp [hp, hni, hee, hen, hng, hid, hmem]

/-- C5 witness: the first line of a concrete `#pragma once` header. -/
theorem c5_witness :
    matchPragmaOnce "#pragma once\n" = true
      ∧ envTriv.resolve ["h.h"] ∉ st0.pragma_once
      ∧ bundleLine (fun st _ => BResult.ok st) envTriv ["h.h"] 0
          "#pragma once\n" "\n" FileCtx.init st0
        = .cont { FileCtx.init with pragma_once_found := true }
            ⟨[["h.h"]], [], [.line 2 "h.h"], []⟩ :=
  ⟨by decide, by decide,
    c5_pragma_once_line_effect (fun st _ => BResult.ok st) envTriv ["h.h"] 0
      "#pragma once\n" "\n" FileCtx.init st0
      (by decide) (by decide) (by decide) (by decide) (by decide) (by decide)
      (by decide)⟩

/-! ## Claim C2 -/

/-- C2 counterexample: in `env2`, `main.cc` is `#ifndef G` /
`#include "a.h"` / `#endif`, and no `#define G` ever appears, so under the
claim's predicate (nest 0, or nest 1 with the guard's `#define` consumed)
the include at line 2 sits at a false predicate and must fail with a policy
error.  The code instead computes `is_toplevel` from the mere presence of
the `#ifndef` candidate (before retracting it), recurses into `a.h`, and the
bundle succeeds with `a.h`'s content in the output. -/
theorem c2_counterexample :
    update env2 2 st0 ["main.cc"]
      = .ok ⟨[], [],
             [.line 1 "main.cc", .raw "\n", .line 1 "a.h",
              .raw "int x;\n", .line 3 "main.cc", .raw "#endif\n"], []⟩ := by
  decide

/-- C2 amended: `is_toplevel` at a line is `nest = 0`, or `nest = 1` with a
guard `#ifndef` candidate currently recorded (whether or not its `#define`
has been consumed yet); and an `#include "name"` line processed while this
predicate is false fails with the policy error instead of recursing. -/
theorem c2_include_error_when_not_toplevel
    (upd : BState → Path → BResult) (env : Env) (path : Path) (i : Nat)
    (line uline : String) (ctx : FileCtx) (st : BState) (name : String)
    (hu : matchIncludeUser uline = some name)
    (hs : matchIncludeSys uline = none)
    (hni : matchNestIf uline = false) (hee : matchElseElif uline = false)
    (hen : matchEndif uline = false)
    (hp : matchPragmaOnce line = false)
    (hig : matchIfndefGuard uline = none)
    (hdg : matchDefineGuard uline = none)
    (hef : ctx.include_guard_endif_found = false)
    (htl : isToplevel ctx = false) :
    bundleLine upd env path i line uline ctx st
      = .fail (.bundleErrorAt path (i + 1)
          "unable to process #include in #if / #ifdef / #ifndef other than include guards")
          st := by
  unfold bundleLine nestStep nestStepElse stagePragma stageGuardIfndef
    stageGuardDefine stageGuardEndif stageContent contentCheck markContent
    stageIncludes
  by_cases he : uline = ""
  · rw [he] at hu
    rw [show matchIncludeUser "" = none from rfl] at hu
    exact Option.noConfusion hu
  · by_cases hcond : ctx.include_guard_ident.isSome = true
        ∧ ctx.include_guard_define_found = false <;>
      simp [hu, hs, hni, hee, hen, hp, hig, hdg, hef, htl, he, hcond]

/-- C2 witness for the amended statement: an `#include "a.h"` at nest depth
1 with no guard candidate recorded errors out. -/
theorem c2_witness :
    matchIncludeUser "#include \"a.h\"\n" = some "a.h"
      ∧ isToplevel { FileCtx.init with preprocess_if_nest := 1 } = false
      ∧ bundleLine (fun st _ => BResult.ok st) envTriv ["m.cc"] 4
          "#include \"a.h\"\n" "#include \"a.h\"\n"
          { FileCtx.init with preprocess_if_nest := 1 } st0
        = .fail (.bundleErrorAt ["m.cc"] 5
            "unable to process #include in #if / #ifdef / #ifndef other than include guards")
            st0 :=
  ⟨by decide, by decide,
    c2_include_error_when_not_toplevel (fun st _ => BResult.ok st) envTriv
      ["m.cc"] 4 "#include \"a.h\"\n" "#include \"a.h\"\n"
      { FileCtx.init with preprocess_if_nest := 1 } st0 "a.h"
      (by decide) (by decide) (by decide) (by decide) (by decide) (by decide)
      (by decide) (by decide) (by decide) (by decide)⟩

/-! ## Claim C7 -/

/-- C7: the conditional-nesting discipline.  `#if`/`#ifdef`/`#ifndef`
increments the counter; `#else`/`#elif` at counter 0 raises
"unmatched #else / #elif"; `#endif` decrements and a negative result raises
"unmatched #endif", otherwise the decrement stands; a nest error on a line
aborts the file with exactly that error; and at end of file a nonzero
counter raises "unmatched #if / #ifdef / #ifndef" while a successful
end-of-file check implies the counter ended at zero. -/
theorem c7_nesting_discipline :
    (∀ (path : Path) (i : Nat) (u : String) (ctx : FileCtx),
        matchNestIf u = true → matchElseElif u = false → matchEndif u = false →
        nestStep path i u ctx
          = .ok { ctx with preprocess_if_nest := ctx.preprocess_if_nest + 1 })
  ∧ (∀ (path : Path) (i : Nat) (u : String) (ctx : FileCtx),
        matchNestIf u = false → matchElseElif u = true →
        ctx.preprocess_if_nest = 0 →
        nestStep path i u ctx
          = .error (.bundleErrorAt path (i + 1) "unmatched #else / #elif"))
  ∧ (∀ (path : Path) (i : Nat) (u : String) (ctx : FileCtx),
        matchNestIf u = false → matchElseElif u = false → matchEndif u = true →
        ctx.preprocess_if_nest = 0 →
        nestStep path i u ctx
          = .error (.bundleErrorAt path (i + 1) "unmatched #endif"))
  ∧ (∀ (path : Path) (i : Nat) (u : String) (ctx : FileCtx),
        matchNestIf u = false → matchElseElif u = false → matchEndif u = true →
        0 < ctx.preprocess_if_nest →
        nestStep path i u ctx
          = .ok { ctx with preprocess_if_nest := ctx.preprocess_if_nest - 1 })
  ∧ (∀ (upd : BState → Path → BResult) (env : Env) (path : Path) (i : Nat)
        (line u : String) (ctx : FileCtx) (st : BState) (e : BErr),
        nestStep path i u ctx = .error e →
        bundleLine upd env path i line u ctx st = .fail e st)
  ∧ (∀ (path : Path) (n : Nat) (ctx : FileCtx) (st : BState),
        ctx.preprocess_if_nest ≠ 0 →
        updateFinish path n ctx st
          = .fail (.bundleErrorAt path n "unmatched #if / #ifdef / #ifndef") st)
  ∧ (∀ (path : Path) (n : Nat) (ctx : FileCtx) (st st' : BState),
        updateFinish path n ctx st = .ok st' → ctx.preprocess_if_nest = 0) := by
  refine ⟨?_, ?_, ?_, ?_, ?_, ?_, ?_⟩
  · intro path i u ctx h1 h2 h3
    unfold nestStep nestStepElse
    simp [h1, h2, h3]
  · intro path i u ctx h1 h2 h3
    unfold nestStep nestStepElse
    simp [h1, h2, h3]
  · intro path i u ctx h1 h2 h3 h4
    unfold nestStep nestStepElse nestStepEndif
    simp [h1, h2, h3, h4]
  · intro path i u ctx h1 h2 h3 h4
    unfold nestStep nestStepElse nestStepEndif
    simp [h1, h2, h3]
    omega
  · intro upd env path i line u ctx st e h
    unfold bundleLine
    rw [h]
  · intro path n ctx st h
    unfold updateFinish
    rw [if_pos h]
  · intro path n ctx st st' h
    unfold updateFinish at h
    by_cases hz : ctx.preprocess_if_nest = 0
    · exact hz
    · rw [if_pos hz] at h; cases h
      
/-- C7 witness: `#if 1` increments the counter from the initial state. -/
theorem c7_witness :
    matchNestIf "#if 1\n" = true ∧ matchElseElif "#if 1\n" = false
      ∧ matchEndif "#if 1\n" = false
      ∧ nestStep ["f"] 0 "#if 1\n" FileCtx.init
          = .ok { FileCtx.init with preprocess_if_nest := 1 } :=
  ⟨by decide, by decide, by decide,
    c7_nesting_discipline.1 ["f"] 0 "#if 1\n" FileCtx.init
      (by decide) (by decide) (by decide)⟩

/-! ## Claim C8 -/

/-- C8: `_resolve(header, included_from)` returns the canonicalized first
existing candidate among the including file's directory joined with the
header, then each configured include directory joined with the header, in
the order supplied; when no candidate exists it fails with the
"no such header" error citing the header name. -/
theorem c8_resolve_search_order (env : Env) (hdr src : Path) :
    resolveHeader env hdr src
      = match ((src.dropLast :: env.iquotes).map (fun d => d ++ hdr)).find?
            env.pathExists with
        | some c => .ok (env.resolve c)
        | none => .error (.bundleErrorAt hdr (-1) "no such header") := by
  have hloop : ∀ dirs : List Path,
      resolveLoop env hdr dirs
        = match (dirs.map (fun d => d ++ hdr)).find? env.pathExists with
          | some c => Except.ok (env.resolve c)
          | none => Except.error (.bundleErrorAt hdr (-1) "no such header") := by
    intro dirs
    induction dirs with
    | nil => rfl
    | cons d rest ih =>
      cases hpe : env.pathExists (d ++ hdr) <;>
        simp [resolveLoop, List.find?_cons, hpe, ih]
  cases hpe : env.pathExists (src.dropLast ++ hdr) <;>
    simp [resolveHeader, List.find?_cons, hpe, hloop]

/-! ## Claim C6 -/

/-- Helper: the include/fallthrough emissions never touch `path_stack`,
provided the recursive callback restores it. -/
theorem stageIncludes_stack (upd : BState → Path → BResult)
    (hupd : ∀ st' p', ((upd st' p').state).path_stack = st'.path_stack)
    (env : Env) (path : Path) (i : Nat) (line uline : String)
    (tl : Bool) (ctx : FileCtx) (st : BState) :
    ((stageIncludes upd env path i line uline tl ctx st).state).path_stack
      = st.path_stack := by
  unfold stageIncludes
  split
  · split
    · rfl
    · split
      · rfl
      · rfl
  · split
    · split
      · rfl
      · split
        · rfl
        · rename_i included hsys huser htl next hres
          split
          · rename_i st1 hup
            have h := hupd st next
            rw [hup] at h
            exact h
          · rename_i e st1 hup
            have h := hupd st next
            rw [hup] at h
            exact h
    · rfl

/-- Helper: the content stage never touches `path_stack`. -/
theorem stageContent_stack (upd : BState → Path → BResult)
    (hupd : ∀ st' p', ((upd st' p').state).path_stack = st'.path_stack)
    (env : Env) (path : Path) (i : Nat) (line uline : String)
    (tl : Bool) (ctx : FileCtx) (st : BState) :
    ((stageContent upd env path i line uline tl ctx st).state).path_stack
      = st.path_stack := by
  unfold stageContent
  split
  · rfl
  · exact stageIncludes_stack upd hupd env path i line uline tl _ st

/-- Helper: the guard-`#endif` stage never touches `path_stack`. -/
theorem stageGuardEndif_stack (upd : BState → Path → BResult)
    (hupd : ∀ st' p', ((upd st' p').state).path_stack = st'.path_stack)
    (env : Env) (path : Path) (i : Nat) (line uline : String)
    (tl : Bool) (ctx : FileCtx) (st : BState) :
    ((stageGuardEndif upd env path i line uline tl ctx st).state).path_stack
      = st.path_stack := by
  unfold stageGuardEndif
  split
  · rfl
  · exact stageContent_stack upd hupd env path i line uline tl ctx st

/-- Helper: the guard-`#define` stage never touches `path_stack`. -/
theorem stageGuardDefine_stack (upd : BState → Path → BResult)
    (hupd : ∀ st' p', ((upd st' p').state).path_stack = st'.path_stack)
    (env : Env) (path : Path) (i : Nat) (line uline : String)
    (tl : Bool) (ctx : FileCtx) (st : BState) :
    ((stageGuardDefine upd env path i line uline tl ctx st).state).path_stack
      = st.path_stack := by
  unfold stageGuardDefine
  split
  · split
    · rfl
    · exact stageGuardEndif_stack upd hupd env path i line uline tl ctx st
  · exact stageGuardEndif_stack upd hupd env path i line uline tl ctx st

/-- Helper: the guard-`#ifndef` stage never touches `path_stack`. -/
theorem stageGuardIfndef_stack (upd : BState → Path → BResult)
    (hupd : ∀ st' p', ((upd st' p').state).path_stack = st'.path_stack)
    (env : Env) (path : Path) (i : Nat) (line uline : String)
    (tl : Bool) (ctx : FileCtx) (st : BState) :
    ((stageGuardIfndef upd env path i line uline tl ctx st).state).path_stack
      = st.path_stack := by
  unfold stageGuardIfndef
  split
  · rfl
  · exact stageGuardDefine_stack upd hupd env path i line uline tl ctx st

/-- Helper: the `#pragma once` stage never touches `path_stack`. -/
theorem stagePragma_stack (upd : BState → Path → BResult)
    (hupd : ∀ st' p', ((upd st' p').state).path_stack = st'.path_stack)
    (env : Env) (path : Path) (i : Nat) (line uline : String)
    (tl : Bool) (ctx : FileCtx) (st : BState) :
    ((stagePragma upd env path i line uline tl ctx st).state).path_stack
      = st.path_stack := by
  unfold stagePragma
  split
  · split
    · rfl
    · split
      · rfl
      · split
        · rfl
        · rfl
  · exact stageGuardIfndef_stack upd hupd env path i line uline tl ctx st

/-- Helper: one loop step never changes `path_stack`. -/
theorem bundleLine_stack (upd : BState → Path → BResult)
    (hupd : ∀ st' p', ((upd st' p').state).path_stack = st'.path_stack)
    (env : Env) (path : Path) (i : Nat) (line uline : String)
    (ctx : FileCtx) (st : BState) :
    ((bundleLine upd env path i line uline ctx st).state).path_stack
      = st.path_stack := by
  unfold bundleLine
  split
  · rfl
  · exact stagePragma_stack upd hupd env path i line uline _ _ st

/-- Helper: the whole per-line loop never changes `path_stack`. -/
theorem bundleLoop_stack (upd : BState → Path → BResult)
    (hupd : ∀ st' p', ((upd st' p').state).path_stack = st'.path_stack)
    (env : Env) (path : Path) :
    ∀ (l : List (String × String)) (i : Nat) (ctx : FileCtx) (st : BState),
      ((bundleLoop upd env path l i ctx st).state).path_stack = st.path_stack := by
  intro l
  induction l with
  | nil => intro i ctx st; rfl
  | cons pr rest ih =>
    intro i ctx st
    obtain ⟨line, uline⟩ := pr
    have hline := bundleLine_stack upd hupd env path i line uline ctx st
    unfold bundleLoop
    cases hstep : bundleLine upd env path i line uline ctx st with
    | cont ctx' st' =>
      rw [hstep] at hline
      rw [ih (i + 1) ctx' st']
      exact hline
    | early st' =>
      rw [hstep] at hline
      exact hline
    | fail e st' =>
      rw [hstep] at hline
      exact hline

/-- Helper: the end-of-file checks return the state they were given. -/
theorem updateFinish_state (path : Path) (n : Nat) (ctx : FileCtx)
    (st : BState) : ((updateFinish path n ctx st).state) = st := by
  unfold updateFinish
  split
  · rfl
  · split <;> rfl

/-- Helper: `popStack` turns a stack of `path :: base` into `base`. -/
theorem popStack_stack (path : Path) (base : List Path) (r : BResult)
    (hr : (r.state).path_stack = path :: base) :
    (((popStack path r).state)).path_stack = base := by
  cases r with
  | ok st' =>
    simp only [BResult.state] at hr
    simp only [popStack, BResult.state, hr]
    exact List.erase_cons_head path base
  | fail e st' =>
    simp only [BResult.state] at hr
    simp only [popStack, BResult.state, hr]
    exact List.erase_cons_head path base

/-- Helper: the body of `update` (after the push) leaves the stack as it
found it, provided the recursive callback restores it. -/
theorem updateBodyInner_stack (env : Env) (upd : BState → Path → BResult)
    (hupd : ∀ st' p', ((upd st' p').state).path_stack = st'.path_stack)
    (st1 : BState) (path : Path) :
    ((updateBodyInner env upd st1 path).state).path_stack
      = st1.path_stack := by
  unfold updateBodyInner
  split
  · rfl
  · rename_i lines hrl
    split
    · rfl
    · have hloop := bundleLoop_stack upd hupd env path
        (lines.zip (strippedPadded env path lines)) 0 FileCtx.init
        { st1 with
          result_lines := appendLineDirective env 1 path st1.result_lines }
      split
      · rename_i ctx3 st3 hres
        rw [hres] at hloop
        rw [updateFinish_state path lines.length ctx3 st3]
        exact hloop
      · rename_i st3 hres
        rw [hres] at hloop
        exact hloop
      · rename_i e st3 hres
        rw [hres] at hloop
        exact hloop

/-- C6 amended: `update` restores `path_stack` on every exit path.  The path
is pushed exactly as passed (the code pushes `path`, not `path.resolve()`)
and popped again on normal return, early return, and error propagation
alike, so after any call the stack equals the stack before it. -/
theorem c6_path_stack_restored (env : Env) :
    ∀ (fuel : Nat) (st : BState) (path : Path),
      ((update env fuel st path).state).path_stack = st.path_stack := by
  intro fuel
  induction fuel with
  | zero =>
    intro st path
    rw [update_zero]
    unfold outerChecks
    split
    · rfl
    · split <;> rfl
  | succ n ih =>
    intro st path
    rw [update_succ]
    unfold outerChecks
    split
    · rfl
    · split
      · rfl
      · unfold updateBody
        exact popStack_stack path st.path_stack _
          (updateBodyInner_stack env (update env n) ih
            { st with path_stack := path :: st.path_stack } path)

/-- C6 counterexample: in `env6` the path `a` canonicalizes to the distinct
path `b`, and `a`'s file includes `"b"`.  Were the CANONICAL path inserted
into `path_stack` on entry (as the claim states), the recursive
`update` of `b` would find `b` on the stack and raise the cycle error;
instead the code pushes the path as passed, the recursion enters `b`
normally, and the bundle succeeds with `b`'s content in the output. -/
theorem c6_counterexample :
    env6.resolve ["a"] = ["b"]
      ∧ update env6 2 st0 ["a"]
          = .ok ⟨[], [],
                 [.line 1 "b", .raw "int ok;\n", .line 2 "a"], []⟩ :=
  ⟨by decide, by decide⟩

/-! ## Claim C9 -/

/-- Whether a step outcome is the embedded `AssertionError`. -/
def StepRes.isAssertFail : StepRes → Bool
  | .fail e _ => errIsAssert e
  | _ => false

/-- Whether a loop outcome is the embedded `AssertionError`. -/
def LoopRes.isAssertFail : LoopRes → Bool
  | .fail e _ => errIsAssert e
  | _ => false


/-- Helper: running the padding loop of `get_uncommented_code` on aligned
preprocessor output never makes the stripped view longer than the raw
view. -/
theorem gucGo_length_le (rawLen : Nat) :
    ∀ (pout acc : List String), acc.length ≤ rawLen →
      alignedTo rawLen acc.length pout = true →
      (gucGo acc pout).length ≤ rawLen := by
  intro pout
  induction pout with
  | nil =>
    intro acc hacc _
    simpa [gucGo] using hacc
  | cons l rest ih =>
    intro acc hacc ha
    rw [show alignedTo rawLen acc.length (l :: rest)
          = (match matchLinemarker l with
             | some n => decide (n ≤ rawLen + 1)
                 && alignedTo rawLen (max acc.length (n - 1)) rest
             | none => decide (acc.length < rawLen)
                 && alignedTo rawLen (acc.length + 1) rest) from rfl] at ha
    cases hm : matchLinemarker l with
    | some n =>
      rw [hm] at ha
      rw [Bool.and_eq_true, decide_eq_true_eq] at ha
      obtain ⟨hn, ha'⟩ := ha
      have hlen : (padTo acc n).length = max acc.length (n - 1) := by
        unfold padTo
        rw [List.length_append, List.length_replicate]
        omega
      rw [show gucGo acc (l :: rest)
            = (match matchLinemarker l with
               | some n => gucGo (padTo acc n) rest
               | none => gucGo (acc ++ [l]) rest) from rfl, hm]
      apply ih
      · omega
      · rw [hlen]; exact ha'
    | none =>
      rw [hm] at ha
      rw [Bool.and_eq_true, decide_eq_true_eq] at ha
      obtain ⟨hn, ha'⟩ := ha
      have hlen : (acc ++ [l]).length = acc.length + 1 := by
        rw [List.length_append]; rfl
      rw [show gucGo acc (l :: rest)
            = (match matchLinemarker l with
               | some n => gucGo (padTo acc n) rest
               | none => gucGo (acc ++ [l]) rest) from rfl, hm]
      apply ih
      · omega
      · rw [hlen]; exact ha'

/-- Helper: on aligned preprocessor output, the padded stripped view has
exactly the raw view's length. -/
theorem strippedPadded_length (env : Env) (path : Path) (lines : List String)
    (ha : alignedTo lines.length 0 (env.ppOut path) = true) :
    (strippedPadded env path lines).length = lines.length := by
  have hle := gucGo_length_le lines.length (env.ppOut path) []
    (by simp) (by simpa using ha)
  unfold strippedPadded getUncommentedLines
  rw [List.length_append, List.length_replicate]
  have h2 : (gucGo [] (env.ppOut path)).length ≤ lines.length := hle
  omega



/-- Helper: `_resolve` only fails with its "no such header" error. -/
theorem resolveHeader_err (env : Env) (hdr src : Path) (e : BErr)
    (h : resolveHeader env hdr src = .error e) :
    e = .bundleErrorAt hdr (-1) "no such header" := by
  have hloop : ∀ (dirs : List Path) (e' : BErr),
      resolveLoop env hdr dirs = .error e' →
      e' = .bundleErrorAt hdr (-1) "no such header" := by
    intro dirs
    induction dirs with
    | nil =>
      intro e' h'
      unfold resolveLoop at h'
      exact (Except.error.inj h').symm
    | cons d rest ih =>
      intro e' h'
      unfold resolveLoop at h'
      split at h'
      · cases h'
      · exact ih e' h'
  unfold resolveHeader at h
  split at h
  · cases h
  · exact hloop env.iquotes e h

/-- Helper: the content check only fails with its policy error. -/
theorem contentCheck_err (path : Path) (i : Nat) (uline : String)
    (ctx : FileCtx) (e : BErr)
    (h : contentCheck path i uline ctx = .error e) :
    e = .bundleErrorAt path (i + 1) "found codes out of include guard" := by
  unfold contentCheck at h
  split at h
  · cases h
  · split at h
    · exact (Except.error.inj h).symm
    · cases h

/-- Helper: the nesting bookkeeping only fails with its two structural
errors. -/
theorem nestStep_err (path : Path) (i : Nat) (u : String) (ctx : FileCtx)
    (e : BErr) (h : nestStep path i u ctx = .error e) :
    e = .bundleErrorAt path (i + 1) "unmatched #else / #elif"
      ∨ e = .bundleErrorAt path (i + 1) "unmatched #endif" := by
  unfold nestStep at h
  generalize (if matchNestIf u then
      { ctx with preprocess_if_nest := ctx.preprocess_if_nest + 1 }
    else ctx) = ctx1 at h
  unfold nestStepElse at h
  split at h
  · exact Or.inl (Except.error.inj h).symm
  · split at h
    · unfold nestStepEndif at h
      split at h
      · exact Or.inr (Except.error.inj h).symm
      · cases h
    · cases h

/-- Helper: the include/fallthrough emissions never raise the assert. -/
theorem stageIncludes_noassert (upd : BState → Path → BResult)
    (hupd : ∀ st' p', ((upd st' p').isAssertFail) = false)
    (env : Env) (path : Path) (i : Nat) (line uline : String)
    (tl : Bool) (ctx : FileCtx) (st : BState) :
    ((stageIncludes upd env path i line uline tl ctx st).isAssertFail)
      = false := by
  unfold stageIncludes
  split
  · split
    · rfl
    · split
      · rfl
      · rfl
  · split
    · split
      · rfl
      · split
        · rename_i included hsys huser htl e hres
          rw [resolveHeader_err env (strToPath included) path e hres]
          rfl
        · rename_i included hsys huser htl next hres
          split
          · rfl
          · rename_i e st1 hup
            have h := hupd st next
            rw [hup] at h
            exact h
    · rfl

/-- Helper: the content stage never raises the assert. -/
theorem stageContent_noassert (upd : BState → Path → BResult)
    (hupd : ∀ st' p', ((upd st' p').isAssertFail) = false)
    (env : Env) (path : Path) (i : Nat) (line uline : String)
    (tl : Bool) (ctx : FileCtx) (st : BState) :
    ((stageContent upd env path i line uline tl ctx st).isAssertFail)
      = false := by
  unfold stageContent
  split
  · rename_i e heq
    rw [contentCheck_err path i uline ctx e heq]
    rfl
  · exact stageIncludes_noassert upd hupd env path i line uline tl _ st

/-- Helper: the guard-`#endif` stage never raises the assert. -/
theorem stageGuardEndif_noassert (upd : BState → Path → BResult)
    (hupd : ∀ st' p', ((upd st' p').isAssertFail) = false)
    (env : Env) (path : Path) (i : Nat) (line uline : String)
    (tl : Bool) (ctx : FileCtx) (st : BState) :
    ((stageGuardEndif upd env path i line uline tl ctx st).isAssertFail)
      = false := by
  unfold stageGuardEndif
  split
  · rfl
  · exact stageContent_noassert upd hupd env path i line uline tl ctx st

/-- Helper: the guard-`#define` stage never raises the assert. -/
theorem stageGuardDefine_noassert (upd : BState → Path → BResult)
    (hupd : ∀ st' p', ((upd st' p').isAssertFail) = false)
    (env : Env) (path : Path) (i : Nat) (line uline : String)
    (tl : Bool) (ctx : FileCtx) (st : BState) :
    ((stageGuardDefine upd env path i line uline tl ctx st).isAssertFail)
      = false := by
  unfold stageGuardDefine
  split
  · split
    · rfl
    · exact stageGuardEndif_noassert upd hupd env path i line uline tl ctx st
  · exact stageGuardEndif_noassert upd hupd env path i line uline tl ctx st

/-- Helper: the guard-`#ifndef` stage never raises the assert. -/
theorem stageGuardIfndef_noassert (upd : BState → Path → BResult)
    (hupd : ∀ st' p', ((upd st' p').isAssertFail) = false)
    (env : Env) (path : Path) (i : Nat) (line uline : String)
    (tl : Bool) (ctx : FileCtx) (st : BState) :
    ((stageGuardIfndef upd env path i line uline tl ctx st).isAssertFail)
      = false := by
  unfold stageGuardIfndef
  split
  · rfl
  · exact stageGuardDefine_noassert upd hupd env path i line uline tl ctx st

/-- Helper: the pragma stage never raises the assert. -/
theorem stagePragma_noassert (upd : BState → Path → BResult)
    (hupd : ∀ st' p', ((upd st' p').isAssertFail) = false)
    (env : Env) (path : Path) (i : Nat) (line uline : String)
    (tl : Bool) (ctx : FileCtx) (st : BState) :
    ((stagePragma upd env path i line uline tl ctx st).isAssertFail)
      = false := by
  unfold stagePragma
  split
  · split
    · rfl
    · split
      · rfl
      · split
        · rfl
        · rfl
  · exact stageGuardIfndef_noassert upd hupd env path i line uline tl ctx st

/-- Helper: one loop step never raises the assert. -/
theorem bundleLine_noassert (upd : BState → Path → BResult)
    (hupd : ∀ st' p', ((upd st' p').isAssertFail) = false)
    (env : Env) (path : Path) (i : Nat) (line uline : String)
    (ctx : FileCtx) (st : BState) :
    ((bundleLine upd env path i line uline ctx st).isAssertFail) = false := by
  unfold bundleLine
  split
  · rename_i e heq
    rcases nestStep_err path i uline ctx e heq with h | h <;> (rw [h]; rfl)
  · exact stagePragma_noassert upd hupd env path i line uline _ _ st

/-- Helper: the loop never raises the assert. -/
theorem bundleLoop_noassert (upd : BState → Path → BResult)
    (hupd : ∀ st' p', ((upd st' p').isAssertFail) = false)
    (env : Env) (path : Path) :
    ∀ (l : List (String × String)) (i : Nat) (ctx : FileCtx) (st : BState),
      ((bundleLoop upd env path l i ctx st).isAssertFail) = false := by
  intro l
  induction l with
  | nil => intro i ctx st; rfl
  | cons pr rest ih =>
    intro i ctx st
    obtain ⟨line, uline⟩ := pr
    have hline := bundleLine_noassert upd hupd env path i line uline ctx st
    unfold bundleLoop
    cases hstep : bundleLine upd env path i line uline ctx st with
    | cont ctx' st' => exact ih (i + 1) ctx' st'
    | early st' => rfl
    | fail e st' =>
      rw [hstep] at hline
      exact hline

/-- Helper: the end-of-file checks never raise the assert. -/
theorem updateFinish_noassert (path : Path) (n : Nat) (ctx : FileCtx)
    (st : BState) : ((updateFinish path n ctx st).isAssertFail) = false := by
  unfold updateFinish
  split
  · rfl
  · split <;> rfl

/-- Helper: `popStack` does not change the error kind. -/
theorem popStack_isAssertFail (path : Path) (r : BResult) :
    ((popStack path r).isAssertFail) = r.isAssertFail := by
  cases r with
  | ok st' => rfl
  | fail e st' => rfl

/-- C9: (a) on preprocessor output satisfying the linemarker alignment
contract, linemarker-driven padding followed by the empty-trailing-line
padding of `update` makes the stripped view exactly as long as the raw view;
(b) consequently, in an environment whose preprocessor output is aligned for
every file, no `update` run ever fails the equal-length assertion. -/
theorem c9_views_align_and_assert_passes :
    (∀ (env : Env) (path : Path) (lines : List String),
        env.rawLines path = some lines →
        alignedTo lines.length 0 (env.ppOut path) = true →
        (strippedPadded env path lines).length = lines.length)
  ∧ (∀ (env : Env), AlignedEnv env →
      ∀ (fuel : Nat) (st : BState) (path : Path),
        ((update env fuel st path).isAssertFail) = false) := by
  constructor
  · intro env path lines _ ha
    exact strippedPadded_length env path lines ha
  · intro env henv fuel
    induction fuel with
    | zero =>
      intro st path
      rw [update_zero]
      unfold outerChecks
      split
      · rfl
      · split <;> rfl
    | succ n ih =>
      intro st path
      rw [update_succ]
      unfold outerChecks
      split
      · rfl
      · split
        · rfl
        · unfold updateBody
          rw [popStack_isAssertFail]
          unfold updateBodyInner
          split
          · rfl
          · rename_i lines hrl
            split
            · rename_i hne
              exact absurd (strippedPadded_length env path lines
                (henv path lines hrl)).symm hne
            · have hloop := bundleLoop_noassert (update env n) ih env path
                (lines.zip (strippedPadded env path lines)) 0 FileCtx.init
                { st with
                  path_stack := path :: st.path_stack,
                  result_lines := appendLineDirective env 1 path
                    st.result_lines }
              cases hres : bundleLoop (update env n) env path
                  (lines.zip (strippedPadded env path lines)) 0 FileCtx.init
                  { st with
                    path_stack := path :: st.path_stack,
                    result_lines := appendLineDirective env 1 path
                      st.result_lines } with
              | done ctx3 st3 =>
                exact updateFinish_noassert path lines.length ctx3 st3
              | early st3 => rfl
              | fail e st3 =>
                rw [hres] at hloop
                exact hloop

/-- C9 witness: a concrete aligned environment, on which a run indeed does
not fail the assertion, and the concrete padded-length computation for the
`env5` pragma-once file. -/
theorem c9_witness :
    AlignedEnv (envConst ["int x;\n"] ["int x;\n"])
      ∧ ((update (envConst ["int x;\n"] ["int x;\n"]) 1 st0 ["p"]).isAssertFail)
          = false
      ∧ (strippedPadded env5 ["a.h"] ["#pragma once\n", "int x;\n"]).length
          = ["#pragma once\n", "int x;\n"].length := by
  have hal : AlignedEnv (envConst ["int x;\n"] ["int x;\n"]) := by
    intro path lines h
    have h' : lines = ["int x;\n"] := (Option.some.inj h).symm
    subst h'
    show alignedTo (["int x;\n"] : List String).length 0 ["int x;\n"] = true
    decide
  refine ⟨hal, c9_views_align_and_assert_passes.2 _ hal 1 st0 ["p"], ?_⟩
  exact c9_views_align_and_assert_passes.1 env5 ["a.h"]
    ["#pragma once\n", "int x;\n"] (by decide) (by decide)

/-! ## Claim C3 -/

/-- The system-include output relation between a starting state and a later
state: the recorded system-header set only grows; for every name already
recorded, the number of output lines recognized as `#include <H>` never
grows (pops of pending `#line` directives may shrink it); and once the
umbrella header is recorded, the total number of recognized `#include <...>`
output lines never grows. -/
def SysProp (st st' : BState) : Prop :=
  st.pragma_once_system ⊆ st'.pragma_once_system
    ∧ (∀ H ∈ st.pragma_once_system,
        sysCount H st'.result_lines ≤ sysCount H st.result_lines)
    ∧ (bits_stdcxx_h ∈ st.pragma_once_system →
        sysTotal st'.result_lines ≤ sysTotal st.result_lines)

/-- Helper: `SysProp` is reflexive. -/
theorem sysProp_refl (st : BState) : SysProp st st :=
  ⟨fun _ h => h, fun _ _ => le_refl _, fun _ => le_refl _⟩

/-- Helper: `SysProp` composes. -/
theorem sysProp_trans {a b c : BState} (h1 : SysProp a b) (h2 : SysProp b c) :
    SysProp a c := by
  obtain ⟨s1, c1, t1⟩ := h1
  obtain ⟨s2, c2, t2⟩ := h2
  exact ⟨fun x hx => s2 (s1 hx),
         fun H hH => le_trans (c2 H (s1 hH)) (c1 H hH),
         fun hb => le_trans (t2 (s1 hb)) (t1 hb)⟩

/-- Helper: popping trailing `#line` directives never increases a count. -/
theorem countP_popLineDirectives_le (p : OutLine → Bool) (l : List OutLine) :
    (popLineDirectives l).countP p ≤ l.countP p := by
  unfold popLineDirectives
  calc ((l.reverse.dropWhile OutLine.isLineDirective).reverse).countP p
      = (l.reverse.dropWhile OutLine.isLineDirective).countP p :=
        (List.reverse_perm _).countP_eq p
    _ ≤ l.reverse.countP p := (List.dropWhile_sublist _).countP_le p
    _ = l.countP p := (List.reverse_perm l).countP_eq p

/-- Helper: `_line` never increases the count of recognized `#include <H>`
output lines. -/
theorem sysCount_appendLine_le (H : String) (env : Env) (n : Nat)
    (path : Path) (l : List OutLine) :
    sysCount H (appendLineDirective env n path l) ≤ sysCount H l := by
  unfold appendLineDirective sysCount
  rw [List.countP_append]
  have h1 := countP_popLineDirectives_le
    (fun o => sysNameOf o == some H) l
  have h2 : List.countP (fun o => sysNameOf o == some H)
      [OutLine.line n (pathStr (env.relToCwd path))] = 0 := rfl
  omega

/-- Helper: `_line` never increases the total recognized-include count. -/
theorem sysTotal_appendLine_le (env : Env) (n : Nat) (path : Path)
    (l : List OutLine) :
    sysTotal (appendLineDirective env n path l) ≤ sysTotal l := by
  unfold appendLineDirective sysTotal
  rw [List.countP_append]
  have h1 := countP_popLineDirectives_le (fun o => (sysNameOf o).isSome) l
  have h2 : List.countP (fun o => (sysNameOf o).isSome)
      [OutLine.line n (pathStr (env.relToCwd path))] = 0 := rfl
  omega

/-- Helper: appending a line not recognized as `#include <H>` keeps the
count. -/
theorem sysCount_append_eq (H : String) (l : List OutLine) (o : OutLine)
    (ho : (sysNameOf o == some H) = false) :
    sysCount H (l ++ [o]) = sysCount H l := by
  unfold sysCount
  rw [List.countP_append, List.countP_cons, ho]
  rfl

/-- Helper: appending an unrecognized line keeps the total count. -/
theorem sysTotal_append_eq (l : List OutLine) (o : OutLine)
    (ho : ((sysNameOf o).isSome) = false) :
    sysTotal (l ++ [o]) = sysTotal l := by
  unfold sysTotal
  rw [List.countP_append, List.countP_cons, ho]
  rfl

/-- Helper: the include/fallthrough emissions preserve `SysProp`, on a line
pair whose raw and stripped views agree on `#include <...>` recognition. -/
theorem stageIncludes_sys (upd : BState → Path → BResult)
    (hupd : ∀ st' p', SysProp st' ((upd st' p').state))
    (env : Env) (path : Path) (i : Nat) (line uline : String)
    (hag : matchIncludeSys line = matchIncludeSys uline)
    (tl : Bool) (ctx : FileCtx) (st : BState) :
    SysProp st ((stageIncludes upd env path i line uline tl ctx st).state) := by
  unfold stageIncludes
  split
  · rename_i included hsys
    split
    · dsimp only [StepRes.state]
      exact ⟨fun _ h => h,
        fun H _ => sysCount_appendLine_le H env (i + 2) path st.result_lines,
        fun _ => sysTotal_appendLine_le env (i + 2) path st.result_lines⟩
    · rename_i hnotin
      have hraw : matchIncludeSys line = some included := hag.trans hsys
      split
      · dsimp only [StepRes.state]
        refine ⟨fun x hx => ?_, fun H hH => ?_, fun hb => ?_⟩
        · unfold addStr
          split
          · exact hx
          · exact List.mem_cons_of_mem _ hx
        · have hne : (sysNameOf (OutLine.raw line) == some H) = false := by
            have : sysNameOf (OutLine.raw line) = some included := hraw
            rw [this]
            have hHne : included ≠ H := by
              intro he
              exact hnotin (Or.inl (he ▸ hH))
            simp [hHne]
          rw [sysCount_append_eq H st.result_lines (OutLine.raw line) hne]
        · exact absurd (Or.inr hb) hnotin
      · dsimp only [StepRes.state]
        refine ⟨fun _ h => h, fun H hH => ?_, fun hb => ?_⟩
        · have hne : (sysNameOf (OutLine.raw line) == some H) = false := by
            have h0 : sysNameOf (OutLine.raw line) = some included := hraw
            rw [h0]
            have hHne : included ≠ H := by
              intro he
              exact hnotin (Or.inl (he ▸ hH))
            simp [hHne]
          rw [sysCount_append_eq H st.result_lines (OutLine.raw line) hne]
        · exact absurd (Or.inr hb) hnotin
  · rename_i hsys
    split
    · rename_i included huser
      split
      · exact sysProp_refl st
      · split
        · exact sysProp_refl st
        · rename_i next hres
          split
          · rename_i st1 hup
            have h := hupd st next
            rw [hup] at h
            dsimp only [StepRes.state]
            dsimp only [BResult.state] at h
            refine sysProp_trans h ⟨fun _ hx => hx, fun H _ => ?_, fun _ => ?_⟩
            · exact sysCount_appendLine_le H env (i + 2) path st1.result_lines
            · exact sysTotal_appendLine_le env (i + 2) path st1.result_lines
          · rename_i e st1 hup
            have h := hupd st next
            rw [hup] at h
            exact h
    · have hraw : matchIncludeSys line = none := by
        rename_i huser
        exact hag.trans hsys
      have hne : ∀ H, (sysNameOf (OutLine.raw line) == some H) = false := by
        intro H
        have h0 : sysNameOf (OutLine.raw line) = none := hraw
        rw [h0]
        rfl
      have hns : ((sysNameOf (OutLine.raw line)).isSome) = false := by
        have h0 : sysNameOf (OutLine.raw line) = none := hraw
        rw [h0]
        rfl
      dsimp only [StepRes.state]
      refine ⟨fun _ h => h, fun H hH => ?_, fun hb => ?_⟩
      · rw [sysCount_append_eq H st.result_lines (OutLine.raw line) (hne H)]
      · rw [sysTotal_append_eq st.result_lines (OutLine.raw line) hns]

/-- Helper: a blank-line emission preserves `SysProp`. -/
theorem sysProp_blank (st : BState) :
    SysProp st { st with result_lines := st.result_lines ++ [.raw "\n"] } := by
  refine ⟨fun _ h => h, fun H hH => ?_, fun hb => ?_⟩
  · rw [sysCount_append_eq H st.result_lines (OutLine.raw "\n") rfl]
  · rw [sysTotal_append_eq st.result_lines (OutLine.raw "\n") rfl]

/-- Helper: the content stage preserves `SysProp`. -/
theorem stageContent_sys (upd : BState → Path → BResult)
    (hupd : ∀ st' p', SysProp st' ((upd st' p').state))
    (env : Env) (path : Path) (i : Nat) (line uline : String)
    (hag : matchIncludeSys line = matchIncludeSys uline)
    (tl : Bool) (ctx : FileCtx) (st : BState) :
    SysProp st ((stageContent upd env path i line uline tl ctx st).state) := by
  unfold stageContent
  split
  · exact sysProp_refl st
  · exact stageIncludes_sys upd hupd env path i line uline hag tl _ st

/-- Helper: the guard-`#endif` stage preserves `SysProp`. -/
theorem stageGuardEndif_sys (upd : BState → Path → BResult)
    (hupd : ∀ st' p', SysProp st' ((upd st' p').state))
    (env : Env) (path : Path) (i : Nat) (line uline : String)
    (hag : matchIncludeSys line = matchIncludeSys uline)
    (tl : Bool) (ctx : FileCtx) (st : BState) :
    SysProp st ((stageGuardEndif upd env path i line uline tl ctx st).state) := by
  unfold stageGuardEndif
  split
  · exact sysProp_blank st
  · exact stageContent_sys upd hupd env path i line uline hag tl ctx st

/-- Helper: the guard-`#define` stage preserves `SysProp`. -/
theorem stageGuardDefine_sys (upd : BState → Path → BResult)
    (hupd : ∀ st' p', SysProp st' ((upd st' p').state))
    (env : Env) (path : Path) (i : Nat) (line uline : String)
    (hag : matchIncludeSys line = matchIncludeSys uline)
    (tl : Bool) (ctx : FileCtx) (st : BState) :
    SysProp st ((stageGuardDefine upd env path i line uline tl ctx st).state) := by
  unfold stageGuardDefine
  split
  · split
    · exact sysProp_blank st
    · exact stageGuardEndif_sys upd hupd env path i line uline hag tl ctx st
  · exact stageGuardEndif_sys upd hupd env path i line uline hag tl ctx st

/-- Helper: the guard-`#ifndef` stage preserves `SysProp`. -/
theorem stageGuardIfndef_sys (upd : BState → Path → BResult)
    (hupd : ∀ st' p', SysProp st' ((upd st' p').state))
    (env : Env) (path : Path) (i : Nat) (line uline : String)
    (hag : matchIncludeSys line = matchIncludeSys uline)
    (tl : Bool) (ctx : FileCtx) (st : BState) :
    SysProp st ((stageGuardIfndef upd env path i line uline tl ctx st).state) := by
  unfold stageGuardIfndef
  split
  · exact sysProp_blank st
  · exact stageGuardDefine_sys upd hupd env path i line uline hag tl ctx st

/-- Helper: the pragma stage preserves `SysProp`. -/
theorem stagePragma_sys (upd : BState → Path → BResult)
    (hupd : ∀ st' p', SysProp st' ((upd st' p').state))
    (env : Env) (path : Path) (i : Nat) (line uline : String)
    (hag : matchIncludeSys line = matchIncludeSys uline)
    (tl : Bool) (ctx : FileCtx) (st : BState) :
    SysProp st ((stagePragma upd env path i line uline tl ctx st).state) := by
  unfold stagePragma
  split
  · split
    · exact sysProp_refl st
    · split
      · exact sysProp_refl st
      · split
        · exact sysProp_refl st
        · dsimp only [StepRes.state]
          exact ⟨fun _ h => h,
            fun H _ => sysCount_appendLine_le H env (i + 2) path
              st.result_lines,
            fun _ => sysTotal_appendLine_le env (i + 2) path st.result_lines⟩
  · exact stageGuardIfndef_sys upd hupd env path i line uline hag tl ctx st

/-- Helper: one loop step preserves `SysProp`. -/
theorem bundleLine_sys (upd : BState → Path → BResult)
    (hupd : ∀ st' p', SysProp st' ((upd st' p').state))
    (env : Env) (path : Path) (i : Nat) (line uline : String)
    (hag : matchIncludeSys line = matchIncludeSys uline)
    (ctx : FileCtx) (st : BState) :
    SysProp st ((bundleLine upd env path i line uline ctx st).state) := by
  unfold bundleLine
  split
  · exact sysProp_refl st
  · exact stagePragma_sys upd hupd env path i line uline hag _ _ st

/-- Helper: the loop preserves `SysProp` when every processed line pair has
agreeing views. -/
theorem bundleLoop_sys (upd : BState → Path → BResult)
    (hupd : ∀ st' p', SysProp st' ((upd st' p').state))
    (env : Env) (path : Path) :
    ∀ (l : List (String × String)),
      (∀ pr ∈ l, matchIncludeSys pr.1 = matchIncludeSys pr.2) →
      ∀ (i : Nat) (ctx : FileCtx) (st : BState),
        SysProp st ((bundleLoop upd env path l i ctx st).state) := by
  intro l
  induction l with
  | nil => intro _ i ctx st; exact sysProp_refl st
  | cons pr rest ih =>
    intro hpairs i ctx st
    obtain ⟨line, uline⟩ := pr
    have hag : matchIncludeSys line = matchIncludeSys uline :=
      hpairs (line, uline) (List.mem_cons_self _ _)
    have hrest : ∀ pr' ∈ rest, matchIncludeSys pr'.1 = matchIncludeSys pr'.2 :=
      fun pr' h => hpairs pr' (List.mem_cons_of_mem _ h)
    have hline := bundleLine_sys upd hupd env path i line uline hag ctx st
    unfold bundleLoop
    cases hstep : bundleLine upd env path i line uline ctx st with
    | cont ctx' st' =>
      rw [hstep] at hline
      exact sysProp_trans hline (ih hrest (i + 1) ctx' st')
    | early st' =>
      rw [hstep] at hline
      exact hline
    | fail e st' =>
      rw [hstep] at hline
      exact hline

/-- Helper: `popStack` only touches `path_stack`, so it preserves
`SysProp`. -/
theorem popStack_sys (path : Path) (r : BResult) (st : BState)
    (h : SysProp st (r.state)) : SysProp st ((popStack path r).state) := by
  cases r with
  | ok st' => exact h
  | fail e st' => exact h

/-- Helper: the body of `update` (after the push) preserves `SysProp` from
its own starting state. -/
theorem updateBodyInner_sys (env : Env) (hag : SysViewAgree env)
    (upd : BState → Path → BResult)
    (hupd : ∀ st' p', SysProp st' ((upd st' p').state))
    (st1 : BState) (path : Path) :
    SysProp st1 ((updateBodyInner env upd st1 path).state) := by
  unfold updateBodyInner
  split
  · exact sysProp_refl st1
  · rename_i lines hrl
    split
    · exact sysProp_refl st1
    · have hpairs : ∀ pr ∈ lines.zip (strippedPadded env path lines),
          matchIncludeSys pr.1 = matchIncludeSys pr.2 := by
        intro pr hpr
        apply hag path (lines.zip (strippedPadded env path lines))
        · unfold fileView
          rw [hrl]
        · exact hpr
      have hpush : SysProp st1
          { st1 with
            result_lines := appendLineDirective env 1 path st1.result_lines } := by
        refine ⟨fun _ h => h, fun H _ => ?_, fun _ => ?_⟩
        · exact sysCount_appendLine_le H env 1 path st1.result_lines
        · exact sysTotal_appendLine_le env 1 path st1.result_lines
      have hloop := bundleLoop_sys upd hupd env path
        (lines.zip (strippedPadded env path lines)) hpairs 0 FileCtx.init
        { st1 with
          result_lines := appendLineDirective env 1 path st1.result_lines }
      cases hres : bundleLoop upd env path
          (lines.zip (strippedPadded env path lines)) 0 FileCtx.init
          { st1 with
            result_lines := appendLineDirective env 1 path st1.result_lines }
        with
      | done ctx3 st3 =>
        rw [hres] at hloop
        show SysProp st1 ((updateFinish path lines.length ctx3 st3).state)
        rw [updateFinish_state path lines.length ctx3 st3]
        exact sysProp_trans hpush hloop
      | early st3 =>
        rw [hres] at hloop
        exact sysProp_trans hpush hloop
      | fail e st3 =>
        rw [hres] at hloop
        exact sysProp_trans hpush hloop

/-- C3 amended, at the level of the whole recursion: in an environment whose
raw and stripped views agree on `#include <...>` recognition, every `update`
run (successful or not) (a) only grows the recorded system-header set
`pragma_once_system`, (b) adds no output line recognized as `#include <H>`
for any name `H` already recorded — so a standard-library name is emitted at
most once through the top-level dedup branch that records it — and (c) once
the umbrella header `bits/stdc++.h` is recorded, adds no recognized
`#include <...>` output line at all.  (Without the "recorded" qualifier the
original claim is false: includes emitted inside conditionals, where
`is_toplevel` is false, are not deduplicated — see the counterexample.) -/
theorem c3_recorded_system_includes_not_reemitted (env : Env)
    (hag : SysViewAgree env) (fuel : Nat) (st : BState) (path : Path) :
    st.pragma_once_system
        ⊆ ((update env fuel st path).state).pragma_once_system
      ∧ (∀ H ∈ st.pragma_once_system,
          sysCount H (((update env fuel st path).state).result_lines)
            ≤ sysCount H st.result_lines)
      ∧ (bits_stdcxx_h ∈ st.pragma_once_system →
          sysTotal (((update env fuel st path).state).result_lines)
            ≤ sysTotal st.result_lines) := by
  induction fuel generalizing st path with
  | zero =>
    rw [update_zero]
    unfold outerChecks
    split
    · exact sysProp_refl st
    · split
      · exact sysProp_refl st
      · exact sysProp_refl st
  | succ n ih =>
    rw [update_succ]
    unfold outerChecks
    split
    · exact sysProp_refl st
    · split
      · exact sysProp_refl st
      · unfold updateBody
        apply popStack_sys
        have hpush0 : SysProp st
            { st with path_stack := path :: st.path_stack } :=
          ⟨fun _ h => h, fun _ _ => le_refl _, fun _ => le_refl _⟩
        exact sysProp_trans hpush0
          (updateBodyInner_sys env hag (update env n)
            (fun st' p' => ih st' p')
            { st with path_stack := path :: st.path_stack } path)

/-- C3 counterexample: the umbrella header included inside `#if 1` is
emitted without being recorded (not top-level), then included again at top
level and emitted again: the bundle succeeds and its output contains TWO
lines recognized as `#include <bits/stdc++.h>` — the second of them after
the first — refuting both the no-duplicates claim and the
nothing-after-the-umbrella claim as stated. -/
theorem c3_counterexample :
    update env3 1 st0 ["main.cc"]
        = .ok ⟨[], ["bits/stdc++.h"],
               [.line 1 "main.cc", .raw "#if 1\n",
                .raw "#include <bits/stdc++.h>\n", .raw "#endif\n",
                .raw "#include <bits/stdc++.h>\n"], []⟩
      ∧ sysCount "bits/stdc++.h"
          [.line 1 "main.cc", .raw "#if 1\n",
           .raw "#include <bits/stdc++.h>\n", .raw "#endif\n",
           .raw "#include <bits/stdc++.h>\n"] = 2 :=
  ⟨by decide, by decide⟩

/-- C3 witness: a concrete environment with agreeing views in which the
umbrella header is already recorded; the amended theorem applies and the
run emits no recognized system include. -/
theorem c3_witness :
    SysViewAgree (envConst ["#include <vector>\n"] ["#include <vector>\n"])
      ∧ bits_stdcxx_h
          ∈ (⟨[], ["bits/stdc++.h"], [], []⟩ : BState).pragma_once_system
      ∧ sysTotal (((update
            (envConst ["#include <vector>\n"] ["#include <vector>\n"]) 1
            ⟨[], ["bits/stdc++.h"], [], []⟩ ["m"]).state).result_lines)
          ≤ sysTotal (⟨[], ["bits/stdc++.h"], [], []⟩ : BState).result_lines := by
  have hag : SysViewAgree
      (envConst ["#include <vector>\n"] ["#include <vector>\n"]) := by
    intro path v h
    rw [show fileView (envConst ["#include <vector>\n"]
          ["#include <vector>\n"]) path
        = some [("#include <vector>\n", "#include <vector>\n")] from rfl] at h
    cases Option.some.inj h
    intro pr hpr
    rw [List.mem_singleton] at hpr
    rw [hpr]
  refine ⟨hag, by decide, ?_⟩
  exact (c3_recorded_system_includes_not_reemitted
    (envConst ["#include <vector>\n"] ["#include <vector>\n"]) hag 1
    ⟨[], ["bits/stdc++.h"], [], []⟩ ["m"]).2.2 (by decide)

end CppBundle
